import Mathlib

/-!
# Shallow embedding of the go-logger package

Embeds `logger.go` and the no-op variant (`NoopLogger`) of the
AquiGorka/go-logger repository. The package is a facade over the zerolog
backend; the parts of zerolog this package's behaviour depends on (the
numeric level constants, the level-threshold check, `Level.String`) are
embedded from zerolog's public, documented API and marked as such.
Go machine integers never come near overflow here (levels are tiny
constants), so `Int` models both `Level` and `zerolog.Level`.

Side effects (directory creation, file open, writing) are modelled by
explicit data: an `OsEnv` record of the OS calls' outcomes, a list of
`FsAction`s performed by construction, and a list of `LogRecord`s emitted
by a logging call.
-/

/-- Go `type Level int` (logger.go line 31). -/
abbrev Level := Int

/-- `LevelDebug Level = iota` — logs everything. -/
def LevelDebug : Level := 0

/-- `LevelInfo` — logs info, events, warnings, and errors. -/
def LevelInfo : Level := 1

/-- `LevelEvent` — logs events, warnings, and errors. -/
def LevelEvent : Level := 2

/-- `LevelDisabled` — silences all output. -/
def LevelDisabled : Level := 3

/-- zerolog's `type Level int8` (external backend). -/
abbrev ZLevel := Int

/-- zerolog's `DebugLevel = 0` (backend constant, from zerolog's API). -/
def zerologDebugLevel : ZLevel := 0

/-- zerolog's `InfoLevel = 1` (backend constant, from zerolog's API). -/
def zerologInfoLevel : ZLevel := 1

/-- zerolog's `WarnLevel = 2` (backend constant, from zerolog's API). -/
def zerologWarnLevel : ZLevel := 2

/-- zerolog's `ErrorLevel = 3` (backend constant, from zerolog's API). -/
def zerologErrorLevel : ZLevel := 3

/-- zerolog's `Disabled = 7` (backend constant, from zerolog's API). -/
def zerologDisabled : ZLevel := 7

/-- `const eventLevel = zerolog.Level(2)` (logger.go line 41): the custom
zerolog level used for domain events. -/
def eventLevel : ZLevel := 2

/-- `var levelMap map[Level]zerolog.Level` (logger.go lines 43-48), as the
lookup function: `none` models a key that is absent from the map. -/
def levelMap (l : Level) : Option ZLevel :=
  if l = LevelDebug then some zerologDebugLevel
  else if l = LevelInfo then some zerologInfoLevel
  else if l = LevelEvent then some eventLevel
  else if l = LevelDisabled then some zerologDisabled
  else none

/-- Go's `strings.ToLower`: the per-rune lower mapping, applied to every
character of the string. `Char.toLower` matches Go's mapping on the ASCII
range, which is all the switch in `ParseLevel` compares against. -/
def stringsToLower (s : String) : String :=
  String.mk (s.data.map Char.toLower)

/-- Go's `strings.ToUpper`: the per-rune upper mapping, applied to every
character of the string. -/
def stringsToUpper (s : String) : String :=
  String.mk (s.data.map Char.toUpper)

/-- `ParseLevel` (logger.go lines 52-63): case-insensitive switch on the
lowered string. -/
def ParseLevel (s : String) : Level :=
  if stringsToLower s = "debug" then LevelDebug
  else if stringsToLower s = "info" then LevelInfo
  else if stringsToLower s = "event" then LevelEvent
  else LevelDisabled

/-- Modelled from the zerolog backend: `Level.String` for the levels that
can reach `LevelFieldMarshalFunc`. -/
def zerologLevelString (l : ZLevel) : String :=
  if l = -1 then "trace"
  else if l = 0 then "debug"
  else if l = 1 then "info"
  else if l = 2 then "warn"
  else if l = 3 then "error"
  else if l = 4 then "fatal"
  else if l = 5 then "panic"
  else ""

/-- The `init` function (logger.go lines 176-183) installs this as
`zerolog.LevelFieldMarshalFunc`: the custom event level is tagged
`"event"`, every other level keeps zerolog's display name. -/
def levelFieldMarshal (l : ZLevel) : String :=
  if l = eventLevel then "event" else zerologLevelString l

/-- An output sink: `os.Stdout` by default, or the caller's custom
`io.Writer` (identified abstractly by a number). -/
inductive WriterId
  | stdout
  | custom (id : Nat)
deriving DecidableEq

/-- One destination in the fan-out assembled by `New`: the console writer
wrapping a sink, or an opened append-mode log file. -/
inductive LogWriter
  | console (w : WriterId)
  | file (path : String)
deriving DecidableEq

/-- The zerolog logger value built by
`zerolog.New(MultiLevelWriter(writers...)).Level(zlevel).With().Timestamp().Logger()`:
its destinations, its level threshold, and the unconditional timestamp
enrichment. -/
structure ZLogger where
  writers : List LogWriter
  level : ZLevel
  timestamp : Bool
deriving DecidableEq

/-- Go `type options struct { filePath string; writer io.Writer }`
(logger.go lines 77-80). -/
structure options where
  filePath : String
  writer : WriterId
deriving DecidableEq

/-- Go `type Option func(*options)` (logger.go line 75). -/
def LogOption := options → options

/-- `WithFile` (logger.go lines 84-88). -/
def WithFile (path : String) : LogOption :=
  fun o => { o with filePath := path }

/-- `WithWriter` (logger.go lines 92-96). -/
def WithWriter (w : WriterId) : LogOption :=
  fun o => { o with writer := w }

/-- A Go error value: either an underlying OS error, or a wrapped error
produced by `fmt.Errorf("<ctx>: %w", cause)`. -/
inductive GoError
  | osError (msg : String)
  | wrapped (ctx : String) (cause : GoError)
deriving DecidableEq

/-- The OS facilities `New` consults: `filepath.Dir`, and the outcomes of
`os.MkdirAll(dir, 0750)` and
`os.OpenFile(path, O_APPEND|O_CREATE|O_WRONLY, 0644)` (`none` = success). -/
structure OsEnv where
  dir : String → String
  mkdirAll : String → Option GoError
  openFile : String → Option GoError

/-- A filesystem side effect performed by `New`, in order. -/
inductive FsAction
  | mkdirAll (dir : String)
  | openFile (path : String)
deriving DecidableEq

/-- Go `type logger struct { zl zerolog.Logger; scope string }`
(logger.go lines 171-174). -/
structure logger where
  zl : ZLogger
  scope : String
deriving DecidableEq

/-- The option-application loop of `New` (logger.go lines 101-106):
options applied in order onto the default config `{writer: os.Stdout}`. -/
def applyOptions (opts : List LogOption) : options :=
  opts.foldl (fun c o => o c) { filePath := "", writer := WriterId.stdout }

/-- The body of `New` after the options are folded (logger.go lines
108-134): assemble the console writer, handle the file-path branch with
its two failure points, map the level through `levelMap` (an unmapped
level degrades to `zerolog.Disabled`), and build the `"main"`-scoped
logger. The returned list records the OS calls made, in order. -/
def newWithCfg (env : OsEnv) (level : Level) (cfg : options) :
    Except GoError logger × List FsAction :=
  if cfg.filePath ≠ "" then
    match env.mkdirAll (env.dir cfg.filePath) with
    | some e =>
        (Except.error (GoError.wrapped "logger: create log directory" e),
         [FsAction.mkdirAll (env.dir cfg.filePath)])
    | none =>
        match env.openFile cfg.filePath with
        | some e =>
            (Except.error (GoError.wrapped "logger: open log file" e),
             [FsAction.mkdirAll (env.dir cfg.filePath), FsAction.openFile cfg.filePath])
        | none =>
            (Except.ok
               { zl :=
                   { writers := [LogWriter.console cfg.writer, LogWriter.file cfg.filePath],
                     level := (levelMap level).getD zerologDisabled,
                     timestamp := true },
                 scope := "main" },
             [FsAction.mkdirAll (env.dir cfg.filePath), FsAction.openFile cfg.filePath])
  else
    (Except.ok
       { zl :=
           { writers := [LogWriter.console cfg.writer],
             level := (levelMap level).getD zerologDisabled,
             timestamp := true },
         scope := "main" },
     [])

/-- `New` (logger.go lines 100-135). -/
def New (env : OsEnv) (level : Level) (opts : List LogOption) :
    Except GoError logger × List FsAction :=
  newWithCfg env level (applyOptions opts)

/-- The argument zerolog passes to `FormatLevel`: the level tag as a
string, or some non-string value. -/
inductive GoValue
  | str (s : String)
  | nonString
deriving DecidableEq

/-- `FormatLevel` installed by `newConsoleWriter` (logger.go lines
141-167): fixed colored short codes for the five known tags, uppercased
passthrough otherwise, `"???"` for a non-string. -/
def formatLevel (i : GoValue) : String :=
  match i with
  | GoValue.str s =>
      if s = "event" then "\x1b[37m" ++ "EVT" ++ "\x1b[0m"
      else if s = "info" then "\x1b[32m" ++ "INF" ++ "\x1b[0m"
      else if s = "debug" then "\x1b[36m" ++ "DBG" ++ "\x1b[0m"
      else if s = "error" then "\x1b[31m" ++ "ERR" ++ "\x1b[0m"
      else if s = "warn" then "\x1b[33m" ++ "WRN" ++ "\x1b[0m"
      else stringsToUpper s
  | GoValue.nonString => "???"

/-- One structured record accepted by the backend: its zerolog level, the
formatted message text, and the optional structured error field added by
`Err`. -/
structure LogRecord where
  level : ZLevel
  message : String
  errField : Option String
deriving DecidableEq

/-- Modelled from the zerolog backend: a record at level `lvl` passes a
logger whose threshold is `threshold` iff `lvl` is not below it (the
global level stays at its default `TraceLevel = -1`, below every level
this package emits at). -/
def zerologShould (threshold lvl : ZLevel) : Bool :=
  decide (threshold ≤ lvl)

/-- `(*logger).Info` (logger.go lines 185-187):
`l.zl.Info().Msgf("[%s] %s", l.scope, msg)`. The returned list holds the
records the backend emits (empty when filtered). -/
def logger.Info (l : logger) (msg : String) : List LogRecord :=
  if zerologShould l.zl.level zerologInfoLevel then
    [{ level := zerologInfoLevel,
       message := "[" ++ l.scope ++ "] " ++ msg,
       errField := none }]
  else []

/-- `(*logger).Event` (logger.go lines 189-191):
`l.zl.WithLevel(eventLevel).Msgf("-%s (%s)", msg, l.scope)`. -/
def logger.Event (l : logger) (msg : String) : List LogRecord :=
  if zerologShould l.zl.level eventLevel then
    [{ level := eventLevel,
       message := "-" ++ msg ++ " (" ++ l.scope ++ ")",
       errField := none }]
  else []

/-- `(*logger).Debug` (logger.go lines 193-195):
`l.zl.Debug().Msgf(" %s: %s (%s)", key, value, l.scope)`. -/
def logger.Debug (l : logger) (key value : String) : List LogRecord :=
  if zerologShould l.zl.level zerologDebugLevel then
    [{ level := zerologDebugLevel,
       message := " " ++ key ++ ": " ++ value ++ " (" ++ l.scope ++ ")",
       errField := none }]
  else []

/-- `(*logger).Error` (logger.go lines 197-199):
`l.zl.Error().Err(err).Msgf("[%s] %s", l.scope, msg)`. The error value is
modelled by its message string and lands in the structured `errField`,
never in the message text. -/
def logger.Error (l : logger) (err msg : String) : List LogRecord :=
  if zerologShould l.zl.level zerologErrorLevel then
    [{ level := zerologErrorLevel,
       message := "[" ++ l.scope ++ "] " ++ msg,
       errField := some err }]
  else []

/-- `(*logger).Scope` (logger.go lines 201-203):
`return &logger{l.zl.With().Logger(), name}`. zerolog's
`With().Logger()` yields a child with the same writers and threshold; the
method assigns nothing through the receiver, so the pure embedding is
faithful. -/
def logger.Scope (l : logger) (name : String) : logger :=
  { zl := l.zl, scope := name }

/-- The fan-out of emitted records to every configured destination
(`zerolog.MultiLevelWriter`): each record reaches each writer. -/
def fanOut (zl : ZLogger) (recs : List LogRecord) : List (LogWriter × LogRecord) :=
  recs.flatMap (fun r => zl.writers.map (fun w => (w, r)))

/-- The `Logger` interface (logger.go lines 66-72) with its two
implementations: the real `*logger` and the `*NoopLogger` (noop file,
`NoopLogger struct{}` — a single shared value). -/
inductive Logger
  | real (l : logger)
  | noop
deriving DecidableEq

/-- `NewNoop` (noop file): returns the no-op implementation. -/
def NewNoop : Logger := Logger.noop

/-- Interface dispatch of `Info`; `(*NoopLogger).Info(string) {}` emits
nothing. -/
def Logger.Info : Logger → String → List LogRecord
  | Logger.real l, m => l.Info m
  | Logger.noop, _ => []

/-- Interface dispatch of `Event`; the no-op body is empty. -/
def Logger.Event : Logger → String → List LogRecord
  | Logger.real l, m => l.Event m
  | Logger.noop, _ => []

/-- Interface dispatch of `Debug`; the no-op body is empty. -/
def Logger.Debug : Logger → String → String → List LogRecord
  | Logger.real l, k, v => l.Debug k v
  | Logger.noop, _, _ => []

/-- Interface dispatch of `Error`; the no-op body is empty. -/
def Logger.Error : Logger → String → String → List LogRecord
  | Logger.real l, e, m => l.Error e m
  | Logger.noop, _, _ => []

/-- Interface dispatch of `Scope`; `(*NoopLogger).Scope(string) Logger
{ return n }` hands back the receiver itself, not a fresh value. -/
def Logger.Scope : Logger → String → Logger
  | Logger.real l, n => Logger.real (l.Scope n)
  | Logger.noop, _ => Logger.noop

/-- One call through the `Logger` interface. -/
inductive Call
  | info (m : String)
  | event (m : String)
  | debug (k v : String)
  | err (e m : String)
deriving DecidableEq

/-- Run one call on a `Logger`, collecting the emitted records. -/
def Logger.run1 : Logger → Call → List LogRecord
  | l, Call.info m => l.Info m
  | l, Call.event m => l.Event m
  | l, Call.debug k v => l.Debug k v
  | l, Call.err e m => l.Error e m

/-- Run a sequence of calls on a `Logger`, concatenating the emitted
records in order. -/
def Logger.run (l : Logger) (cs : List Call) : List LogRecord :=
  cs.flatMap l.run1

/-- The console rendering of one record: the colored level code from the
installed marshal and formatter, then the message (timestamp elided,
being call-time data). -/
def consoleLine (r : LogRecord) : String :=
  formatLevel (GoValue.str (levelFieldMarshal r.level)) ++ " " ++ r.message

/-- An `OsEnv` in which both OS calls succeed. -/
def envOk : OsEnv :=
  { dir := fun s => s, mkdirAll := fun _ => none, openFile := fun _ => none }

/-- An `OsEnv` in which `os.MkdirAll` fails with a permission error. -/
def envMkdirFail : OsEnv :=
  { dir := fun s => s,
    mkdirAll := fun _ => some (GoError.osError "permission denied"),
    openFile := fun _ => none }

/-- An `OsEnv` in which directory creation succeeds and `os.OpenFile`
fails. -/
def envOpenFail : OsEnv :=
  { dir := fun s => s,
    mkdirAll := fun _ => none,
    openFile := fun _ => some (GoError.osError "is a directory") }


/-- A concrete debug-threshold console logger used to instantiate
universally quantified theorems. -/
def mainLoggerDebug : logger :=
  { zl := { writers := [LogWriter.console WriterId.stdout],
            level := zerologDebugLevel, timestamp := true },
    scope := "main" }

/-- If `newWithCfg` returns a logger, its threshold is
`levelMap[level]` (defaulting to disabled) and its scope is `"main"`. -/
theorem newWithCfg_ok_fields (env : OsEnv) (level : Level) (cfg : options)
    (l : logger) (h : (newWithCfg env level cfg).1 = Except.ok l) :
    l.zl.level = (levelMap level).getD zerologDisabled ∧ l.scope = "main" := by
  unfold newWithCfg at h
  by_cases hf : cfg.filePath = ""
  · simp [hf] at h
    subst h
    exact ⟨rfl, rfl⟩
  · simp [hf] at h
    cases hm : env.mkdirAll (env.dir cfg.filePath) with
    | some e => rw [hm] at h; simp at h
    | none =>
      rw [hm] at h
      cases ho : env.openFile cfg.filePath with
      | some e => rw [ho] at h; simp at h
      | none =>
        rw [ho] at h
        simp at h
        subst h
        exact ⟨rfl, rfl⟩

/-- C2: `ParseLevel` is a total function over all strings, matching the
lowered input case-insensitively against the three known names and
mapping every other string — the empty string included — to
`LevelDisabled`, never to `LevelDebug`. -/
theorem parseLevel_total_spec (s : String) :
    (ParseLevel s = LevelDebug ↔ stringsToLower s = "debug") ∧
    (ParseLevel s = LevelInfo ↔ stringsToLower s = "info") ∧
    (ParseLevel s = LevelEvent ↔ stringsToLower s = "event") ∧
    (stringsToLower s ≠ "debug" → stringsToLower s ≠ "info" →
      stringsToLower s ≠ "event" → ParseLevel s = LevelDisabled) ∧
    ParseLevel "" = LevelDisabled := by
  refine ⟨?_, ?_, ?_, ?_, by decide⟩ <;>
  · unfold ParseLevel
    split_ifs <;>
      simp_all [LevelDebug, LevelInfo, LevelEvent, LevelDisabled]

/-- Witness for C2 at concrete inputs. -/
theorem parseLevel_total_spec_witness :
    ParseLevel "Http" = LevelDisabled :=
  (parseLevel_total_spec "Http").2.2.2.1 (by decide) (by decide) (by decide)

/-- C3: the four operations render their message text exactly as
`[s] m`, `-m (s)`, ` k: v (s)` and `[s] m`, with `Error`'s error value
carried only in the separate structured field. -/
theorem render_formats (ws : List LogWriter) (s m k v e : String) :
    logger.Info ⟨⟨ws, zerologDebugLevel, true⟩, s⟩ m =
      [⟨zerologInfoLevel, "[" ++ s ++ "] " ++ m, none⟩] ∧
    logger.Event ⟨⟨ws, zerologDebugLevel, true⟩, s⟩ m =
      [⟨eventLevel, "-" ++ m ++ " (" ++ s ++ ")", none⟩] ∧
    logger.Debug ⟨⟨ws, zerologDebugLevel, true⟩, s⟩ k v =
      [⟨zerologDebugLevel, " " ++ k ++ ": " ++ v ++ " (" ++ s ++ ")", none⟩] ∧
    logger.Error ⟨⟨ws, zerologDebugLevel, true⟩, s⟩ e m =
      [⟨zerologErrorLevel, "[" ++ s ++ "] " ++ m, some e⟩] := by
  refine ⟨?_, ?_, ?_, ?_⟩ <;>
    simp [logger.Info, logger.Event, logger.Debug, logger.Error, zerologShould,
      zerologDebugLevel, zerologInfoLevel, zerologErrorLevel, eventLevel]

/-- C4 counterexample: the custom event level is numerically EQUAL to
zerolog's Warn level (both are 2), so it does not lie strictly between
Info and Warn. -/
theorem eventLevel_not_strictly_between :
    eventLevel = zerologWarnLevel ∧
    ¬ (zerologInfoLevel < eventLevel ∧ eventLevel < zerologWarnLevel) := by
  decide

/-- C4 amended: the event level sits strictly above Info and coincides
with the backend's native Warn value; it is distinguished from Warn by
its display tag (via the installed marshal), not numerically, and it
filters above Info. -/
theorem eventLevel_placement_amended :
    zerologInfoLevel < eventLevel ∧ eventLevel = zerologWarnLevel ∧
    levelFieldMarshal eventLevel = "event" ∧
    levelFieldMarshal eventLevel ≠ zerologLevelString zerologWarnLevel ∧
    zerologShould eventLevel zerologInfoLevel = false ∧
    zerologShould eventLevel eventLevel = true := by
  decide

/-- C6: `Scope` returns a new logger sharing the receiver's backend
(writers and threshold) whose scope label is exactly the argument — the
parent label is replaced wholesale, never concatenated. The Go method
writes nothing through the receiver (it only constructs a fresh struct),
so the pure embedding leaves the receiver's fields untouched by
construction. -/
theorem scope_replaces_label (l : logger) (n : String) :
    (l.Scope n).zl = l.zl ∧ (l.Scope n).zl.writers = l.zl.writers ∧
    (l.Scope n).zl.level = l.zl.level ∧ (l.Scope n).scope = n ∧
    l.Scope n = { zl := l.zl, scope := n } :=
  ⟨rfl, rfl, rfl, rfl, rfl⟩

/-- C7: every no-op operation emits nothing for every input, `Scope` on
the no-op logger hands back the very same no-op value, and chained calls
through a no-op scope are silent for every call sequence. -/
theorem noop_silent (n m k v e : String) (cs : List Call) :
    Logger.Info NewNoop m = [] ∧ Logger.Event NewNoop m = [] ∧
    Logger.Debug NewNoop k v = [] ∧ Logger.Error NewNoop e m = [] ∧
    Logger.Scope NewNoop n = NewNoop ∧
    Logger.Info (Logger.Scope NewNoop n) m = [] ∧
    Logger.run (Logger.Scope NewNoop n) cs = [] := by
  refine ⟨rfl, rfl, rfl, rfl, rfl, rfl, ?_⟩
  induction cs with
  | nil => rfl
  | cons c cs ih =>
    cases c <;>
      simpa [Logger.run, Logger.run1, Logger.Info, Logger.Event, Logger.Debug,
        Logger.Error, NewNoop, Logger.Scope] using ih

/-- C8: the console level formatter's fixed mapping of the five known
tags to colored short codes, uppercased passthrough for every other
string, and `"???"` for a non-string input. -/
theorem formatLevel_fixed_mapping (s : String) :
    formatLevel (GoValue.str "event") = "\x1b[37m" ++ "EVT" ++ "\x1b[0m" ∧
    formatLevel (GoValue.str "info") = "\x1b[32m" ++ "INF" ++ "\x1b[0m" ∧
    formatLevel (GoValue.str "debug") = "\x1b[36m" ++ "DBG" ++ "\x1b[0m" ∧
    formatLevel (GoValue.str "error") = "\x1b[31m" ++ "ERR" ++ "\x1b[0m" ∧
    formatLevel (GoValue.str "warn") = "\x1b[33m" ++ "WRN" ++ "\x1b[0m" ∧
    (s ≠ "event" → s ≠ "info" → s ≠ "debug" → s ≠ "error" → s ≠ "warn" →
      formatLevel (GoValue.str s) = stringsToUpper s) ∧
    formatLevel GoValue.nonString = "???" := by
  refine ⟨by decide, by decide, by decide, by decide, by decide, ?_, rfl⟩
  intro h1 h2 h3 h4 h5
  simp [formatLevel, h1, h2, h3, h4, h5]

/-- Witness for C8 at a concrete unrecognized tag. -/
theorem formatLevel_fixed_mapping_witness :
    formatLevel (GoValue.str "trace") = "TRACE" :=
  ((formatLevel_fixed_mapping "trace").2.2.2.2.2.1 (by decide) (by decide)
      (by decide) (by decide) (by decide)).trans (by decide)

/-- C9: two loggers obtained from two `Scope` calls with the same name on
the same parent produce identical emitted records and identical
console-rendered lines for every identical call sequence — the
derivation is deterministic in the parent and the name. -/
theorem scope_derivation_deterministic (l : logger) (n : String)
    (l1 l2 : logger) (h1 : l1 = l.Scope n) (h2 : l2 = l.Scope n)
    (cs : List Call) :
    Logger.run (Logger.real l1) cs = Logger.run (Logger.real l2) cs ∧
    (Logger.run (Logger.real l1) cs).map consoleLine =
      (Logger.run (Logger.real l2) cs).map consoleLine := by
  subst h1 h2
  exact ⟨rfl, rfl⟩

/-- Witness for C9 at a concrete parent, name and call sequence. -/
theorem scope_derivation_deterministic_witness :
    Logger.run (Logger.real (mainLoggerDebug.Scope "db"))
        [Call.info "query executed"] =
      Logger.run (Logger.real (mainLoggerDebug.Scope "db"))
        [Call.info "query executed"] :=
  (scope_derivation_deterministic mainLoggerDebug "db"
      (mainLoggerDebug.Scope "db") (mainLoggerDebug.Scope "db") rfl rfl
      [Call.info "query executed"]).1

/-- C10: `New` with `WithFile ""` behaves exactly as `New` with no file
option: same result, no filesystem action performed, a nil error and a
console-only logger. -/
theorem withFile_empty_is_console_only (env : OsEnv) (level : Level) :
    New env level [WithFile ""] = New env level [] ∧
    (New env level [WithFile ""]).2 = [] ∧
    (New env level [WithFile ""]).1 =
      Except.ok
        { zl := { writers := [LogWriter.console WriterId.stdout],
                  level := (levelMap level).getD zerologDisabled,
                  timestamp := true },
          scope := "main" } :=
  ⟨rfl, rfl, rfl⟩

/-- C5: with a configured file path, `New` fails exactly when directory
creation or file open fails, each failure wrapped with a distinct
step-identifying context around the underlying OS error and returning no
logger; with no file path (or both OS calls succeeding) `New` returns a
logger and a nil error. -/
theorem new_error_paths (env : OsEnv) (level : Level) (opts : List LogOption) :
    ((applyOptions opts).filePath = "" →
      ∃ l, (New env level opts).1 = Except.ok l) ∧
    ((applyOptions opts).filePath ≠ "" →
      (∀ e, env.mkdirAll (env.dir (applyOptions opts).filePath) = some e →
        New env level opts =
          (Except.error (GoError.wrapped "logger: create log directory" e),
           [FsAction.mkdirAll (env.dir (applyOptions opts).filePath)])) ∧
      (∀ e, env.mkdirAll (env.dir (applyOptions opts).filePath) = none →
        env.openFile (applyOptions opts).filePath = some e →
        New env level opts =
          (Except.error (GoError.wrapped "logger: open log file" e),
           [FsAction.mkdirAll (env.dir (applyOptions opts).filePath),
            FsAction.openFile (applyOptions opts).filePath])) ∧
      (env.mkdirAll (env.dir (applyOptions opts).filePath) = none →
        env.openFile (applyOptions opts).filePath = none →
        ∃ l, (New env level opts).1 = Except.ok l)) ∧
    (∀ c1 c2 : GoError,
      GoError.wrapped "logger: create log directory" c1 ≠
        GoError.wrapped "logger: open log file" c2) := by
  refine ⟨?_, ?_, ?_⟩
  · intro h
    refine ⟨{ zl := { writers := [LogWriter.console (applyOptions opts).writer],
                      level := (levelMap level).getD zerologDisabled,
                      timestamp := true },
              scope := "main" }, ?_⟩
    simp [New, newWithCfg, h]
  · intro h
    refine ⟨?_, ?_, ?_⟩
    · intro e he
      simp [New, newWithCfg, h, he]
    · intro e hm ho
      simp [New, newWithCfg, h, hm, ho]
    · intro hm ho
      refine ⟨{ zl := { writers := [LogWriter.console (applyOptions opts).writer,
                                    LogWriter.file (applyOptions opts).filePath],
                        level := (levelMap level).getD zerologDisabled,
                        timestamp := true },
                scope := "main" }, ?_⟩
      simp [New, newWithCfg, h, hm, ho]
  · intro c1 c2 hc
    injection hc with hctx hcause
    exact absurd hctx (by decide)

/-- Witness for C5: a failing `os.MkdirAll` makes `New` return the
directory-creation error wrapping the OS cause. -/
theorem new_error_paths_witness :
    (New envMkdirFail LevelInfo [WithFile "logs/app.log"]).1 =
      Except.error (GoError.wrapped "logger: create log directory"
        (GoError.osError "permission denied")) :=
  congrArg Prod.fst
    (((new_error_paths envMkdirFail LevelInfo
        [WithFile "logs/app.log"]).2.1 (by decide)).1
      (GoError.osError "permission denied") rfl)

/-- C1: the facade levels are totally ordered Debug < Info < Event <
Disabled, and for every logger `New` returns at threshold `T`, a call at
facade level `L` (Info, Event or Debug) emits its record iff `L ≥ T`; at
`LevelDisabled` no call — `Error` included — puts any record on any
destination. -/
theorem level_filtering_iff (env : OsEnv) (opts : List LogOption)
    (T : Level) (l : logger)
    (hT : T = LevelDebug ∨ T = LevelInfo ∨ T = LevelEvent ∨ T = LevelDisabled)
    (h : (New env T opts).1 = Except.ok l) (m k v e : String) :
    (LevelDebug < LevelInfo ∧ LevelInfo < LevelEvent ∧
      LevelEvent < LevelDisabled) ∧
    (l.Info m ≠ [] ↔ LevelInfo ≥ T) ∧
    (l.Event m ≠ [] ↔ LevelEvent ≥ T) ∧
    (l.Debug k v ≠ [] ↔ LevelDebug ≥ T) ∧
    (T = LevelDisabled →
      fanOut l.zl (l.Info m) = [] ∧ fanOut l.zl (l.Event m) = [] ∧
      fanOut l.zl (l.Debug k v) = [] ∧ fanOut l.zl (l.Error e m) = []) := by
  obtain ⟨hlvl, -⟩ := newWithCfg_ok_fields env T (applyOptions opts) l h
  refine ⟨by decide, ?_, ?_, ?_, ?_⟩ <;>
    rcases hT with rfl | rfl | rfl | rfl <;>
      simp [logger.Info, logger.Event, logger.Debug, logger.Error,
        zerologShould, hlvl, fanOut, levelMap, LevelDebug, LevelInfo,
        LevelEvent, LevelDisabled, zerologDebugLevel, zerologInfoLevel,
        zerologErrorLevel, zerologDisabled, eventLevel]

/-- Witness for C1: at an Info-threshold logger built by `New`, an Info
call emits and a Debug call does not. -/
theorem level_filtering_iff_witness :
    (logger.Info
        { zl := { writers := [LogWriter.console WriterId.stdout],
                  level := (levelMap LevelInfo).getD zerologDisabled,
                  timestamp := true },
          scope := "main" } "m" ≠ [] ↔ LevelInfo ≥ LevelInfo) ∧
    (logger.Debug
        { zl := { writers := [LogWriter.console WriterId.stdout],
                  level := (levelMap LevelInfo).getD zerologDisabled,
                  timestamp := true },
          scope := "main" } "k" "v" ≠ [] ↔ LevelDebug ≥ LevelInfo) :=
  ⟨(level_filtering_iff envOk [] LevelInfo _ (Or.inr (Or.inl rfl)) rfl
      "m" "k" "v" "e").2.1,
   (level_filtering_iff envOk [] LevelInfo _ (Or.inr (Or.inl rfl)) rfl
      "m" "k" "v" "e").2.2.2.1⟩
